import Mathlib

/-!
Verification of the paginated GraphQL hook collection (sevacloud/React).

The repository contains several React hooks that wrap a GraphQL transport
and a query cache. The pagination engine is embedded here shallowly:

* JavaScript values are modelled by the inductive type `Val` (null and
  undefined are distinct, as in the language).
* Property access follows JavaScript semantics: plain access on a null or
  undefined receiver throws a TypeError, optional chaining short-circuits
  to undefined, and the nullish-coalescing operator replaces null and
  undefined only. Built-in prototype properties of primitives and arrays
  (such as length) are not modelled; access to them yields undefined.
* Each hook variant has its response-validation function (the body of its
  queryFn after the transport call returns), its variables construction,
  and its flattening logic translated directly from the source. The
  transport itself and the query cache are the external collaborators of
  the spec and are represented by the scripted responses a walk consumes.

Source files embedded:
* src/Hooks/useGraphQLInfiniteQuery.ts, first variant (fixed "Items" key):
  `queryFnA`, `flattenA`.
* src/Hooks/useGraphQLInfiniteQuery.ts, second variant (itemsKey and
  nextTokenKey parameters, token filtering): `queryFnB`, `tokenTransform`,
  `variablesB`, `flattenB`.
* src/Hooks/useDynamoQuery.ts: `getData`.
* src/unnamed/part_000 (useGraphQLQuery): `fetcher000`.
* src/unnamed/part_001 (infinite variant without error-list check):
  `queryFn001`, `variables001`.
-/

/-- A JavaScript value. Numbers are modelled as integers (the items in the
paginated responses are plain records and numbers; floating point does not
occur in the pagination logic). -/
inductive Val where
  | vnull
  | vundefined
  | vbool (b : Bool)
  | vnum (n : Int)
  | vstr (s : String)
  | varr (xs : List Val)
  | vobj (fields : List (String × Val))

namespace Val

/-- JavaScript truthiness. NaN is not representable here. -/
def truthy : Val → Bool
  | .vnull => false
  | .vundefined => false
  | .vbool b => b
  | .vnum n => n != 0
  | .vstr s => s != ""
  | .varr _ => true
  | .vobj _ => true

/-- A value is nullish when it is null or undefined. -/
def isNullish : Val → Bool
  | .vnull => true
  | .vundefined => true
  | _ => false

end Val

/-- First entry with the given key, matching JavaScript object lookup
(insertion order, first match). -/
def lookupField : List (String × Val) → String → Option Val
  | [], _ => none
  | (k, v) :: rest, key => if k = key then some v else lookupField rest key

/-- Whether an object has the given key, as the JavaScript in operator
reports it for plain objects. -/
def hasField (fs : List (String × Val)) (k : String) : Bool :=
  (lookupField fs k).isSome

/-- Optional-chained property access, v?.[k]: undefined when the receiver
is nullish, the property value (or undefined when absent) on objects, and
undefined on primitives and arrays (built-in properties not modelled). -/
def jsOptGet (v : Val) (k : String) : Val :=
  match v with
  | .vobj fs => (lookupField fs k).getD .vundefined
  | _ => .vundefined

/-- Plain property access, v[k]: throws a TypeError on a nullish receiver,
otherwise behaves like `jsOptGet`. -/
def jsGetE (v : Val) (k : String) : Except String Val :=
  match v with
  | .vnull => .error "TypeError: cannot read properties of null"
  | .vundefined => .error "TypeError: cannot read properties of undefined"
  | _ => .ok (jsOptGet v k)

/-- Nullish coalescing, v ?? d. -/
def jsCoalesce (v d : Val) : Val :=
  match v with
  | .vnull => d
  | .vundefined => d
  | _ => v

/-- Contribution of one callback result to Array.prototype.flatMap: an
array is spliced in, any other value is kept as a single element. -/
def flatInto : Val → List Val
  | .varr xs => xs
  | v => [v]

/-- Field lookup on a value known to be an object; none otherwise. -/
def getFieldOpt (v : Val) (k : String) : Option Val :=
  match v with
  | .vobj fs => lookupField fs k
  | _ => none

/-- One GraphQL response as delivered by the transport: the data payload
(undefined when the transport supplied none) and the list of error
messages (empty when the errors field is absent or empty; the hooks only
ever read the message of each error object). -/
structure GQLResult where
  data : Val
  errors : List String

/-- The joined error message every error-checking variant builds:
result.errors.map(e => e.message).join(", "). -/
def joinedErrors (r : GQLResult) : String :=
  String.intercalate ", " r.errors

/-- Response validation of the first useGraphQLInfiniteQuery variant
(src/Hooks/useGraphQLInfiniteQuery.ts lines 58-75). After the error-list
check the source guards `result === null`; that guard compares the result
wrapper itself, which is non-null for every delivered response (and a null
wrapper would already have thrown a TypeError at the error-list access),
so the branch cannot fire and result.data is returned unchecked. -/
def queryFnA (r : GQLResult) : Except String Val :=
  if !r.errors.isEmpty then .error (joinedErrors r)
  else .ok r.data

/-- Response validation of the second useGraphQLInfiniteQuery variant
(src/Hooks/useGraphQLInfiniteQuery.ts lines 172-202): error-list check,
then a truthiness check on result.data. -/
def queryFnB (query : String) (r : GQLResult) : Except String Val :=
  if !r.errors.isEmpty then .error (joinedErrors r)
  else if !r.data.truthy then .error ("Null data for operation: " ++ query)
  else .ok r.data

/-- Response validation of the src/unnamed/part_001 variant (lines 42-59):
no error-list check; a falsy data payload throws, the catch block re-throws
with the same message (err.errors is undefined for the locally thrown
Error, so err.message wins). -/
def queryFn001 (r : GQLResult) : Except String Val :=
  if !r.data.truthy then .error "No data returned from API"
  else .ok r.data

/-- Response validation of useGraphQLQuery in src/unnamed/part_000 (lines
61-84): error-list check, data presence and operation-key check via the in
operator (a TypeError on a non-object payload, as in the language), then a
strict null check on the unwrapped operation value. -/
def fetcher000 (op : String) (r : GQLResult) : Except String Val :=
  if !r.errors.isEmpty then .error (joinedErrors r)
  else if !r.data.truthy then .error ("No data for operation: " ++ op)
  else match r.data with
    | .vobj fs =>
      match lookupField fs op with
      | none => .error ("No data for operation: " ++ op)
      | some .vnull => .error ("Null data for operation: " ++ op)
      | some v => .ok v
    | _ => .error "TypeError: in operator applied to a non-object"

/-- Body of getData in src/Hooks/useDynamoQuery.ts (lines 70-97), before
the surrounding try/catch re-wraps the message. -/
def getDataInner (op : String) (r : GQLResult) : Except String Val :=
  if !r.errors.isEmpty then .error (joinedErrors r)
  else if !r.data.truthy then .error ("No data returned for operation: " ++ op)
  else match r.data with
    | .vobj fs =>
      match lookupField fs op with
      | none => .error ("No data returned for operation: " ++ op)
      | some .vnull => .error ("Null data returned for operation: " ++ op)
      | some v => .ok v
    | _ => .error "TypeError: in operator applied to a non-object"

/-- getData in src/Hooks/useDynamoQuery.ts (lines 70-108): every Error
thrown inside the try block is re-thrown by the catch block with the
prefix "GraphQL Query Error: ". -/
def getData (op : String) (r : GQLResult) : Except String Val :=
  match getDataInner op r with
  | .ok v => .ok v
  | .error m => .error ("GraphQL Query Error: " ++ m)

/-- The typeof x === "object" test: true for objects, arrays and null. -/
def isObjectTypeof : Val → Bool
  | .vobj _ => true
  | .varr _ => true
  | .vnull => true
  | _ => false

/-- Object.entries on an array: index keys in order. -/
def enumEntries (xs : List Val) : List (String × Val) :=
  (xs.enum).map (fun p => (toString p.1, p.2))

/-- tokenValue in the second useGraphQLInfiniteQuery variant (lines
175-180): pageParam && typeof pageParam === "object" selects truthy
objects (and arrays); their entries are filtered to drop the __typename
key and rebuilt into an object; every other value passes through. -/
def tokenTransform (pageParam : Val) : Val :=
  if pageParam.truthy && isObjectTypeof pageParam then
    match pageParam with
    | .vobj fs => .vobj (fs.filter (fun p => p.1 != "__typename"))
    | .varr xs => .vobj ((enumEntries xs).filter (fun p => p.1 != "__typename"))
    | v => v
  else pageParam

/-- JavaScript object spread, merging r over l: keys of l keep their
position but take the value from r when r also has them; keys only in r
are appended in order. -/
def spreadMerge (l r : List (String × Val)) : List (String × Val) :=
  l.map (fun p =>
    match lookupField r p.1 with
    | some v => (p.1, v)
    | none => p)
  ++ r.filter (fun q => l.all (fun p => p.1 != q.1))

/-- Variables built by the second useGraphQLInfiniteQuery variant (lines
182-187): the query input spread together with the transformed token under
the configured key, gated on the truthiness of the transformed token. -/
def variablesB (queryInput : List (String × Val)) (nextTokenKey : String)
    (pageParam : Val) : Val :=
  let tok := tokenTransform pageParam
  .vobj [("input", .vobj (spreadMerge queryInput
    (if tok.truthy then [(nextTokenKey, tok)] else [])))]

/-- Variables built by the src/unnamed/part_001 variant (line 45):
pageParam ? { input: { NextToken: pageParam } } : {}. The initial input
argument of the hook is never consulted. -/
def variables001 (input pageParam : Val) : Val :=
  if pageParam.truthy then .vobj [("input", .vobj [("NextToken", pageParam)])]
  else .vobj []

/-- Per-page item extraction of the second variant (lines 219-226):
page?.[queryString] then resultBlock?.[itemsKey] ?? [], fed to flatMap.
Optional chaining makes this total. -/
def pageItemsB (qs ik : String) (p : Val) : Except String (List Val) :=
  .ok (flatInto (jsCoalesce (jsOptGet (jsOptGet p qs) ik) (.varr [])))

/-- Per-page item extraction of the first variant (lines 96-98):
(page[queryString] as any)?.Items ?? []. The first access is not optional,
so a nullish page throws. -/
def pageItemsA (qs : String) (p : Val) : Except String (List Val) :=
  match jsGetE p qs with
  | .error e => .error e
  | .ok blk => .ok (flatInto (jsCoalesce (jsOptGet blk "Items") (.varr [])))

/-- flatMap over the fetched pages, propagating the first thrown error,
as Array.prototype.flatMap evaluates its callback left to right. -/
def flattenWithE (f : Val → Except String (List Val)) :
    List Val → Except String (List Val)
  | [] => .ok []
  | p :: ps =>
    match f p with
    | .error e => .error e
    | .ok xs =>
      match flattenWithE f ps with
      | .error e => .error e
      | .ok ys => .ok (xs ++ ys)

/-- The items memo of the first variant. -/
def flattenA (qs : String) (pages : List Val) : Except String (List Val) :=
  flattenWithE (pageItemsA qs) pages

/-- The items memo of the second variant. -/
def flattenB (qs ik : String) (pages : List Val) : Except String (List Val) :=
  flattenWithE (pageItemsB qs ik) pages

/-- Whether a page param produced by getNextPageParam makes the cache
layer report a next page: the React Query v4 rule is that any value other
than undefined, null and false means one more page. -/
def nextParamPresent : Val → Bool
  | .vundefined => false
  | .vnull => false
  | .vbool false => false
  | _ => true

/-- hasNextPage as derived from the last fetched page and the
getNextPageParam callback of the hook. -/
def hasNextPageOf (getNext : Val → Val) (pages : List Val) : Bool :=
  match pages.getLast? with
  | none => false
  | some p => nextParamPresent (getNext p)

/-- Observable outcome of a pagination walk: the pages fetched and kept,
the surfaced error of a failed fetch, and whether a fetch is in flight
once the walk has settled. -/
structure WalkResult where
  pages : List Val
  err : Option String
  fetching : Bool

/-- Auto-pagination driver, reacting to each completed fetch exactly as
the useEffect in both infinite variants does (fetch the next page while
hasNextPage and not already fetching; a failed fetch leaves data unchanged
so the effect does not fire again). The walk consumes scripted transport
responses in order: a successful page is appended and the token of that
page decides whether another fetch is issued; a failure halts the walk
with the error surfaced and all earlier pages kept. -/
def runWalkAux (getNext : Val → Val) :
    List (Except String Val) → List Val → WalkResult
  | [], acc => ⟨acc, none, false⟩
  | .error e :: _, acc => ⟨acc, some e, false⟩
  | .ok p :: rest, acc =>
    if nextParamPresent (getNext p) then runWalkAux getNext rest (acc ++ [p])
    else ⟨acc ++ [p], none, false⟩

/-- A walk starting from an empty page sequence. -/
def runWalk (getNext : Val → Val) (rs : List (Except String Val)) : WalkResult :=
  runWalkAux getNext rs []

/-- Modelled from the spec: resolution of a dotted item path (section
4.3), descending through object fields and failing on a missing key or a
non-object intermediate value. Used only to compare the source flattening
against the spec wording. -/
def resolveItemPath : List String → Val → Option Val
  | [], v => some v
  | k :: rest, .vobj fs =>
    match lookupField fs k with
    | some w => resolveItemPath rest w
    | none => none
  | _ :: _, _ => none

/-- Modelled from the spec: the items one page contributes (section 4.3):
resolve the item path, treat a missing or null result as the empty list,
splice in an array result, and keep any other resolved value as a single
item (as the flatMap in the source does). -/
def specItems (path : List String) (p : Val) : List Val :=
  match resolveItemPath path p with
  | none => []
  | some .vnull => []
  | some .vundefined => []
  | some (.varr xs) => xs
  | some v => [v]

/-- Concatenation of per-page item lists, in fetch order. -/
def concatMapPages (f : Val → List Val) : List Val → List Val
  | [] => []
  | p :: ps => f p ++ concatMapPages f ps

/-- Modelled from the spec: the allow-list token transform of section 4.1
(keep exactly the allow-listed keys, in field order). The source has no
such parameter; this definition exists to compare the source transform
against the claimed contract. -/
def specAllowListFilter (fs : List (String × Val)) (allowed : List String) : Val :=
  .vobj (fs.filter (fun p => decide (p.1 ∈ allowed)))

/-- State visible to the auto-continuation effect of both infinite
variants: whether the cache layer reports a further page and whether a
fetch is in flight for this query identity. -/
structure FetchState where
  hasNext : Bool
  inFlight : Bool

/-- One auto-continuation trigger, exactly the guarded effect body of
useGraphQLInfiniteQuery (both variants): fetchNextPage is invoked only
when hasNextPage holds and no fetch is in flight; the boolean reports
whether a request was issued. -/
def autoTrigger (s : FetchState) : FetchState × Bool :=
  if s.hasNext && !s.inFlight then (⟨s.hasNext, true⟩, true) else (s, false)

/-- Number of requests issued by a run of consecutive triggers (no fetch
completion in between, so the in-flight flag is only ever set). -/
def issuedCount : FetchState → Nat → Nat
  | _, 0 => 0
  | s, n + 1 =>
    (if (autoTrigger s).2 then 1 else 0) + issuedCount (autoTrigger s).1 n

/-- The getNextToken callback of the C1 scenario: extract NextToken from
under the getItems operation of a page. -/
def getNextTokenEx (p : Val) : Val :=
  jsOptGet (jsOptGet p "getItems") "NextToken"

/-- First page of the C1 scenario. -/
def page1 : Val :=
  .vobj [("getItems", .vobj [("Items", .varr [.vnum 1, .vnum 2]),
    ("NextToken", .vstr "t1")])]

/-- Second page of the C1 scenario. -/
def page2 : Val :=
  .vobj [("getItems", .vobj [("Items", .varr [.vnum 3]),
    ("NextToken", .vnull)])]

/-- Claim C1: a walk whose first fetched page is getItems with Items
[1,2] and NextToken t1, and whose second fetched page is getItems with
Items [3] and NextToken null, keeps both pages, flattens to [1,2,3] with
queryString getItems and itemsKey Items, and reports no further page
after the second page. -/
theorem two_page_walk_scenario :
    runWalk getNextTokenEx [.ok page1, .ok page2] = ⟨[page1, page2], none, false⟩ ∧
    flattenB "getItems" "Items" [page1, page2] = .ok [.vnum 1, .vnum 2, .vnum 3] ∧
    hasNextPageOf getNextTokenEx [page1, page2] = false :=
  ⟨rfl, rfl, rfl⟩

theorem pageItemsB_eq_spec (qs ik : String) (p : Val) :
    pageItemsB qs ik p = .ok (specItems [qs, ik] p) := by
  cases p <;>
    simp only [pageItemsB, specItems, resolveItemPath, jsOptGet, jsCoalesce,
      flatInto, Option.getD]
  case vobj fs =>
    cases h : lookupField fs qs with
    | none => simp [h, jsOptGet, jsCoalesce, flatInto]
    | some w =>
      cases w <;>
        simp only [h, jsOptGet, jsCoalesce, flatInto, resolveItemPath, Option.getD]
      case vobj gs =>
        cases h2 : lookupField gs ik with
        | none => simp [h2, jsCoalesce, flatInto]
        | some u => cases u <;> simp [h2, jsCoalesce, flatInto]

theorem pageItemsA_eq_B (qs : String) (p : Val) (h : p.isNullish = false) :
    pageItemsA qs p = pageItemsB qs "Items" p := by
  cases p <;> simp_all [pageItemsA, pageItemsB, jsGetE, Val.isNullish]

theorem flattenB_eq_spec (qs ik : String) (pages : List Val) :
    flattenB qs ik pages = .ok (concatMapPages (specItems [qs, ik]) pages) := by
  induction pages with
  | nil => rfl
  | cons p ps ih =>
    simp only [flattenB, flattenWithE, concatMapPages] at ih ⊢
    rw [pageItemsB_eq_spec, ih]

theorem flattenA_eq_spec (qs : String) (pages : List Val)
    (h : ∀ p ∈ pages, p.isNullish = false) :
    flattenA qs pages = .ok (concatMapPages (specItems [qs, "Items"]) pages) := by
  induction pages with
  | nil => rfl
  | cons p ps ih =>
    have hp : p.isNullish = false := h p (by simp)
    have hps : ∀ q ∈ ps, q.isNullish = false := fun q hq => h q (by simp [hq])
    have ihs := ih hps
    simp only [flattenA, flattenWithE, concatMapPages] at ihs ⊢
    rw [pageItemsA_eq_B qs p hp, pageItemsB_eq_spec, ihs]

/-- Claim C2, amended: in the itemsKey variant, the flattened item list
always equals the concatenation, in fetch order, of each page's
resolution of the item path, with a missing or null resolution
contributing the empty list, and flattening never throws. The fixed-Items
variant satisfies the same equation only for sequences in which every
page is itself non-nullish; a null page makes its flattening throw a
TypeError, because the first property access is not optional there. -/
theorem flatten_total_and_matches_spec (qs ik : String) (pages : List Val)
    (h : ∀ p ∈ pages, p.isNullish = false) :
    flattenB qs ik pages = .ok (concatMapPages (specItems [qs, ik]) pages) ∧
    flattenA qs pages = .ok (concatMapPages (specItems [qs, "Items"]) pages) :=
  ⟨flattenB_eq_spec qs ik pages, flattenA_eq_spec qs pages h⟩

/-- Witness for the C2 theorem at the two concrete scenario pages. -/
theorem flatten_total_and_matches_spec_witness :
    (∀ p ∈ [page1, page2], p.isNullish = false) ∧
    (flattenB "getItems" "Items" [page1, page2] =
      .ok (concatMapPages (specItems ["getItems", "Items"]) [page1, page2]) ∧
     flattenA "getItems" [page1, page2] =
      .ok (concatMapPages (specItems ["getItems", "Items"]) [page1, page2])) :=
  ⟨by decide, flatten_total_and_matches_spec "getItems" "Items" [page1, page2] (by decide)⟩

/-- Counterexample to claim C2 as stated: the fixed-Items variant accepts
a null data payload from its query function unchecked, and flattening a
sequence containing that null page throws a TypeError instead of treating
the page as empty. -/
theorem flattenA_throws_on_null_page :
    queryFnA ⟨.vnull, []⟩ = .ok .vnull ∧
    flattenA "getItems" [.vnull] =
      .error "TypeError: cannot read properties of null" :=
  ⟨rfl, rfl⟩

/-- Claim C3, amended: on a response with a non-empty error list, both
useGraphQLInfiniteQuery variants and useGraphQLQuery fail with exactly the
join of all error messages; useDynamoQuery fails with that join behind the
prefix GraphQL Query Error; the src/unnamed/part_001 variant performs no
error-list check and succeeds whenever the data payload is truthy. -/
theorem error_list_fatal_by_variant (q op : String) (r : GQLResult)
    (h : r.errors ≠ []) :
    queryFnA r = .error (joinedErrors r) ∧
    queryFnB q r = .error (joinedErrors r) ∧
    fetcher000 op r = .error (joinedErrors r) ∧
    getData op r = .error ("GraphQL Query Error: " ++ joinedErrors r) ∧
    (r.data.truthy = true → queryFn001 r = .ok r.data) := by
  have he : r.errors.isEmpty = false := by
    cases h2 : r.errors with
    | nil => exact absurd h2 h
    | cons a l => rfl
  refine ⟨?_, ?_, ?_, ?_, ?_⟩
  · simp [queryFnA, he]
  · simp [queryFnB, he]
  · simp [fetcher000, he]
  · simp [getData, getDataInner, he]
  · intro ht; simp [queryFn001, ht]

/-- Witness for the C3 theorem at a concrete two-error response. -/
theorem error_list_fatal_by_variant_witness :
    (⟨.vobj [("x", .vnum 1)], ["boom", "bad"]⟩ : GQLResult).errors ≠ [] ∧
    (queryFnA ⟨.vobj [("x", .vnum 1)], ["boom", "bad"]⟩ =
      .error (joinedErrors ⟨.vobj [("x", .vnum 1)], ["boom", "bad"]⟩) ∧
     queryFn001 ⟨.vobj [("x", .vnum 1)], ["boom", "bad"]⟩ =
      .ok (.vobj [("x", .vnum 1)])) := by
  refine ⟨by decide, ?_, ?_⟩
  · exact (error_list_fatal_by_variant "q" "op" _ (by decide)).1
  · exact (error_list_fatal_by_variant "q" "op" _ (by decide)).2.2.2.2 rfl

/-- Counterexample to claim C3 as stated: the src/unnamed/part_001 query
function returns the payload of a response that carries both data and a
non-empty error list, instead of failing with the joined messages. -/
theorem part001_ignores_error_list :
    queryFn001 ⟨.vobj [("getItems", .vnum 1)], ["boom"]⟩ =
      .ok (.vobj [("getItems", .vnum 1)]) := rfl

/-- Claim C4, amended: a payload without the named operation key makes
useDynamoQuery and useGraphQLQuery fail with their missing-operation
errors, but the infinite-query variants perform no such check: they
return the payload, and the page is appended to the walk. -/
theorem missing_operation_check_by_variant (q op : String)
    (fs : List (String × Val)) (h : lookupField fs op = none) :
    getData op ⟨.vobj fs, []⟩ =
      .error ("GraphQL Query Error: No data returned for operation: " ++ op) ∧
    fetcher000 op ⟨.vobj fs, []⟩ = .error ("No data for operation: " ++ op) ∧
    queryFnA ⟨.vobj fs, []⟩ = .ok (.vobj fs) ∧
    queryFnB q ⟨.vobj fs, []⟩ = .ok (.vobj fs) ∧
    queryFn001 ⟨.vobj fs, []⟩ = .ok (.vobj fs) ∧
    (runWalk (fun _ => .vundefined) [.ok (.vobj fs)]).pages = [.vobj fs] := by
  refine ⟨?_, ?_, ?_, ?_, ?_, ?_⟩ <;>
    simp [getData, getDataInner, fetcher000, queryFnA, queryFnB, queryFn001,
      h, Val.truthy, runWalk, runWalkAux, nextParamPresent] <;>
    rw [← String.append_assoc] <;> congr 1

/-- Witness for the C4 theorem at a payload holding only another key. -/
theorem missing_operation_check_by_variant_witness :
    lookupField [("otherOp", Val.vnum 1)] "getItems" = none ∧
    (getData "getItems" ⟨.vobj [("otherOp", .vnum 1)], []⟩ =
      .error ("GraphQL Query Error: No data returned for operation: " ++ "getItems") ∧
     fetcher000 "getItems" ⟨.vobj [("otherOp", .vnum 1)], []⟩ =
      .error ("No data for operation: " ++ "getItems") ∧
     queryFnA ⟨.vobj [("otherOp", .vnum 1)], []⟩ = .ok (.vobj [("otherOp", .vnum 1)]) ∧
     queryFnB "q" ⟨.vobj [("otherOp", .vnum 1)], []⟩ = .ok (.vobj [("otherOp", .vnum 1)]) ∧
     queryFn001 ⟨.vobj [("otherOp", .vnum 1)], []⟩ = .ok (.vobj [("otherOp", .vnum 1)]) ∧
     (runWalk (fun _ => .vundefined) [.ok (.vobj [("otherOp", .vnum 1)])]).pages =
       [.vobj [("otherOp", .vnum 1)]]) :=
  ⟨rfl, missing_operation_check_by_variant "q" "getItems" _ rfl⟩

/-- Counterexample to claim C4 as stated: the itemsKey infinite variant
accepts a payload without the named operation key, and the page sequence
does not remain empty. -/
theorem infinite_variant_accepts_missing_operation :
    queryFnB "q" ⟨.vobj [("otherOp", .vnum 2)], []⟩ = .ok (.vobj [("otherOp", .vnum 2)]) ∧
    (runWalk (fun _ => .vundefined) [.ok (.vobj [("otherOp", .vnum 2)])]).pages =
      [.vobj [("otherOp", .vnum 2)]] :=
  ⟨rfl, rfl⟩

/-- Claim C5, amended: an explicitly null operation value makes
useDynamoQuery and useGraphQLQuery fail with their null-result errors, but
the infinite-query variants return the payload unchecked (their null
guards inspect the response wrapper or the whole data object, never the
operation value). -/
theorem null_result_check_by_variant (q op : String)
    (fs : List (String × Val)) (h : lookupField fs op = some .vnull) :
    getData op ⟨.vobj fs, []⟩ =
      .error ("GraphQL Query Error: Null data returned for operation: " ++ op) ∧
    fetcher000 op ⟨.vobj fs, []⟩ = .error ("Null data for operation: " ++ op) ∧
    queryFnA ⟨.vobj fs, []⟩ = .ok (.vobj fs) ∧
    queryFnB q ⟨.vobj fs, []⟩ = .ok (.vobj fs) ∧
    queryFn001 ⟨.vobj fs, []⟩ = .ok (.vobj fs) := by
  refine ⟨?_, ?_, ?_, ?_, ?_⟩ <;>
    simp [getData, getDataInner, fetcher000, queryFnA, queryFnB, queryFn001,
      h, Val.truthy] <;>
    rw [← String.append_assoc] <;> congr 1

/-- Witness for the C5 theorem at a payload whose operation value is null. -/
theorem null_result_check_by_variant_witness :
    lookupField [("getItems", Val.vnull)] "getItems" = some .vnull ∧
    (getData "getItems" ⟨.vobj [("getItems", .vnull)], []⟩ =
      .error ("GraphQL Query Error: Null data returned for operation: " ++ "getItems") ∧
     fetcher000 "getItems" ⟨.vobj [("getItems", .vnull)], []⟩ =
      .error ("Null data for operation: " ++ "getItems") ∧
     queryFnA ⟨.vobj [("getItems", .vnull)], []⟩ = .ok (.vobj [("getItems", .vnull)]) ∧
     queryFnB "q" ⟨.vobj [("getItems", .vnull)], []⟩ = .ok (.vobj [("getItems", .vnull)]) ∧
     queryFn001 ⟨.vobj [("getItems", .vnull)], []⟩ = .ok (.vobj [("getItems", .vnull)])) :=
  ⟨rfl, null_result_check_by_variant "q" "getItems" _ rfl⟩

/-- Counterexample to claim C5 as stated: all three infinite-variant
query functions accept a response whose operation value is explicitly
null, instead of failing with a null-result error. -/
theorem infinite_variant_accepts_null_operation_value :
    queryFnA ⟨.vobj [("getItems", .vnull)], []⟩ = .ok (.vobj [("getItems", .vnull)]) ∧
    queryFnB "q2" ⟨.vobj [("getItems", .vnull)], []⟩ = .ok (.vobj [("getItems", .vnull)]) ∧
    queryFn001 ⟨.vobj [("getItems", .vnull)], []⟩ = .ok (.vobj [("getItems", .vnull)]) :=
  ⟨rfl, rfl, rfl⟩

/-- Counterexample to claim C6 as stated: with allow-list consisting only
of cursor, the source transformer keeps the key extra, which is not
allow-listed (the source filters out only the __typename key), while the
allow-list contract of the spec would drop it. -/
theorem tokenTransform_keeps_non_allowlisted_key :
    getFieldOpt (tokenTransform (.vobj [("cursor", .vstr "abc"), ("extra", .vstr "y")]))
      "extra" = some (.vstr "y") ∧
    ¬ ("extra" ∈ (["cursor"] : List String)) ∧
    getFieldOpt (specAllowListFilter [("cursor", .vstr "abc"), ("extra", .vstr "y")]
      ["cursor"]) "extra" = none :=
  ⟨rfl, by decide, rfl⟩

/-- Claim C6, amended: the source token transformer implements a fixed
deny-list that drops only the __typename key; it coincides with the
claimed allow-list behaviour exactly when every key of the token is
allow-listed except __typename. On the spec token, whose only extra key
is __typename, the result is exactly the cursor field. -/
theorem tokenTransform_as_allowlist (fs : List (String × Val)) (allowed : List String)
    (h : ∀ p ∈ fs, p.1 ∈ allowed ↔ p.1 ≠ "__typename") :
    tokenTransform (.vobj fs) = specAllowListFilter fs allowed ∧
    tokenTransform (.vobj [("cursor", .vstr "abc"), ("__typename", .vstr "X")]) =
      .vobj [("cursor", .vstr "abc")] := by
  refine ⟨?_, rfl⟩
  simp only [tokenTransform, specAllowListFilter, Val.truthy, isObjectTypeof,
    Bool.and_self, if_true]
  congr 1
  apply List.filter_congr
  intro p hp
  have hiff := h p hp
  by_cases hc : p.1 = "__typename" <;> simp_all

/-- Witness for the C6 theorem at the spec token and allow-list. -/
theorem tokenTransform_as_allowlist_witness :
    (∀ p ∈ [("cursor", Val.vstr "abc"), ("__typename", Val.vstr "X")],
      p.1 ∈ (["cursor"] : List String) ↔ p.1 ≠ "__typename") ∧
    tokenTransform (.vobj [("cursor", .vstr "abc"), ("__typename", .vstr "X")]) =
      specAllowListFilter [("cursor", .vstr "abc"), ("__typename", .vstr "X")]
        ["cursor"] :=
  ⟨by decide, (tokenTransform_as_allowlist _ ["cursor"] (by decide)).1⟩

theorem lookupField_append (l r : List (String × Val)) (k : String) :
    lookupField (l ++ r) k =
      (match lookupField l k with
       | some w => some w
       | none => lookupField r k) := by
  induction l with
  | nil => simp [lookupField]
  | cons p l ih =>
    obtain ⟨a, b⟩ := p
    by_cases hc : a = k <;> simp [lookupField, hc, ih]

theorem lookupField_map_override (l r : List (String × Val)) (k : String) :
    lookupField (l.map (fun p =>
      match lookupField r p.1 with
      | some w => (p.1, w)
      | none => p)) k =
      (match lookupField l k with
       | none => none
       | some w =>
         match lookupField r k with
         | some u => some u
         | none => some w) := by
  induction l with
  | nil => simp [lookupField]
  | cons p l ih =>
    obtain ⟨a, b⟩ := p
    by_cases hc : a = k
    · subst hc
      cases hr : lookupField r a <;> simp [lookupField, hr]
    · cases hr : lookupField r a <;> simp [lookupField, hc, hr, ih]

theorem all_keys_ne_iff_lookup_none (l : List (String × Val)) (k : String) :
    (l.all (fun pp => pp.1 != k)) = true ↔ lookupField l k = none := by
  induction l with
  | nil => simp [lookupField]
  | cons p l ih =>
    obtain ⟨a, b⟩ := p
    by_cases hc : a = k <;> simp [lookupField, hc, ih]

theorem lookupField_spreadMerge_single (l : List (String × Val)) (k : String) (v : Val) :
    lookupField (spreadMerge l [(k, v)]) k = some v := by
  unfold spreadMerge
  rw [lookupField_append, lookupField_map_override]
  cases hl : lookupField l k with
  | some w => simp [lookupField]
  | none =>
    have hall : (l.all (fun pp => pp.1 != k)) = true :=
      (all_keys_ne_iff_lookup_none l k).mpr hl
    simp [List.filter, lookupField, hall]

/-- Claim C7: an object continuation token that is empty after filtering,
whether it started empty or held only __typename, is still truthy, so it
is injected into the request variables under the configured token key and
the cache layer still reports a further page (it is not the absent-token
sentinel). This holds for every query input and token key. -/
theorem empty_object_token_forwarded (qi : List (String × Val)) (ntk : String) :
    ((getFieldOpt (variablesB qi ntk (.vobj [])) "input").bind
      (fun inp => getFieldOpt inp ntk)) = some (.vobj []) ∧
    ((getFieldOpt (variablesB qi ntk (.vobj [("__typename", .vstr "X")])) "input").bind
      (fun inp => getFieldOpt inp ntk)) = some (.vobj []) ∧
    nextParamPresent (.vobj []) = true := by
  refine ⟨?_, ?_, rfl⟩ <;>
  · simp [variablesB, tokenTransform, Val.truthy, isObjectTypeof, getFieldOpt,
      lookupField, List.filter]
    exact lookupField_spreadMerge_single qi ntk (.vobj [])

theorem autoTrigger_inFlight (s : FetchState) (h : s.inFlight = true) :
    autoTrigger s = (s, false) := by
  simp [autoTrigger, h]

theorem issuedCount_inFlight (n : Nat) (s : FetchState) (h : s.inFlight = true) :
    issuedCount s n = 0 := by
  induction n generalizing s with
  | zero => rfl
  | succ n ih => simp [issuedCount, autoTrigger_inFlight s h, ih s h]

/-- Claim C8: while a fetch is in flight for a query identity, an
auto-continuation trigger is a no-op (state unchanged, no request issued)
and an arbitrary run of further triggers issues no request at all; from
an idle state with a further page, any number of consecutive triggers
(in particular two fetchNext invocations) issues exactly one request. -/
theorem single_request_in_flight (s : FetchState) (n : Nat) (h : s.inFlight = true) :
    autoTrigger s = (s, false) ∧ issuedCount s n = 0 ∧
    issuedCount ⟨true, false⟩ (n + 1) = 1 := by
  refine ⟨autoTrigger_inFlight s h, issuedCount_inFlight n s h, ?_⟩
  simp [issuedCount, autoTrigger, issuedCount_inFlight n ⟨true, true⟩ rfl]

/-- Witness for the C8 theorem with two triggers from the idle state. -/
theorem single_request_in_flight_witness :
    (⟨true, true⟩ : FetchState).inFlight = true ∧
    (autoTrigger ⟨true, true⟩ = (⟨true, true⟩, false) ∧
     issuedCount ⟨true, true⟩ 1 = 0 ∧
     issuedCount ⟨true, false⟩ 2 = 1) :=
  ⟨rfl, single_request_in_flight ⟨true, true⟩ 1 rfl⟩

theorem runWalkAux_fail (g : Val → Val) (e : String) (rest : List (Except String Val))
    (ps : List Val) (h : ∀ p ∈ ps, nextParamPresent (g p) = true) :
    ∀ acc, runWalkAux g (ps.map .ok ++ .error e :: rest) acc = ⟨acc ++ ps, some e, false⟩ := by
  induction ps with
  | nil => intro acc; simp [runWalkAux]
  | cons p ps ih =>
    intro acc
    have hp : nextParamPresent (g p) = true := h p (by simp)
    have ihs := ih (fun q hq => h q (by simp [hq])) (acc ++ [p])
    simp only [List.map_cons, List.cons_append, runWalkAux, hp, if_true,
      List.append_eq]
    rw [ihs]
    simp

/-- Claim C9: when fetching page N fails, the walk halts with the error
surfaced and no fetch in flight, the previously fetched pages are kept
unchanged (independently of any responses scripted after the failure, so
no further page is requested), and the flattened item list is exactly
that of the successful pages, with nothing from the failed page. -/
theorem walk_failure_isolation (g : Val → Val) (qs ik e : String)
    (ps : List Val) (rest : List (Except String Val))
    (h : ∀ p ∈ ps, nextParamPresent (g p) = true) :
    runWalk g (ps.map .ok ++ .error e :: rest) = ⟨ps, some e, false⟩ ∧
    flattenB qs ik (runWalk g (ps.map .ok ++ .error e :: rest)).pages =
      flattenB qs ik ps := by
  have h1 := runWalkAux_fail g e rest ps h []
  simp only [List.nil_append] at h1
  refine ⟨?_, ?_⟩ <;> simp [runWalk, h1]

/-- Witness for the C9 theorem: the second fetch of a three-response
script fails; the first page is kept and the third response is ignored. -/
theorem walk_failure_isolation_witness :
    (∀ p ∈ [page1], nextParamPresent (getNextTokenEx p) = true) ∧
    (runWalk getNextTokenEx [.ok page1, .error "network down", .ok page2] =
      ⟨[page1], some "network down", false⟩ ∧
     flattenB "getItems" "Items"
       (runWalk getNextTokenEx [.ok page1, .error "network down", .ok page2]).pages =
      flattenB "getItems" "Items" [page1]) :=
  ⟨by decide, walk_failure_isolation getNextTokenEx "getItems" "Items"
    "network down" [page1] [.ok page2] (by decide)⟩

/-- Counterexample to claim C10 as stated: an empty-string continuation
token is accepted by the cache layer as a further page param, yet the
variables of that subsequent request are the empty object, not an input
object carrying the token, because the token is falsy. -/
theorem falsy_token_sends_empty_variables :
    variables001 (.vobj [("limit", .vnum 50)]) (.vstr "") = .vobj [] ∧
    nextParamPresent (.vstr "") = true :=
  ⟨rfl, rfl⟩

/-- Claim C10, amended: the part_001 variant never forwards the
caller-supplied initial input (the variables are independent of it); the
first request, whose page param is undefined, sends the empty variables
object, and every subsequent request with a truthy token sends exactly
the input object carrying that token under NextToken, while a falsy
token (such as the empty string) also sends the empty object. -/
theorem input_never_forwarded (i j pp : Val) (h : pp.truthy = true) :
    variables001 i pp = variables001 j pp ∧
    variables001 i .vundefined = .vobj [] ∧
    variables001 i pp = .vobj [("input", .vobj [("NextToken", pp)])] := by
  refine ⟨rfl, rfl, ?_⟩
  simp [variables001, h]

/-- Witness for the C10 theorem at a concrete input and token. -/
theorem input_never_forwarded_witness :
    (Val.vstr "tok").truthy = true ∧
    (variables001 (.vobj [("limit", .vnum 50)]) (.vstr "tok") =
      variables001 .vundefined (.vstr "tok") ∧
     variables001 (.vobj [("limit", .vnum 50)]) .vundefined = .vobj [] ∧
     variables001 (.vobj [("limit", .vnum 50)]) (.vstr "tok") =
      .vobj [("input", .vobj [("NextToken", .vstr "tok")])]) :=
  ⟨rfl, input_never_forwarded (.vobj [("limit", .vnum 50)]) .vundefined (.vstr "tok") rfl⟩
